import Mathlib

/-!
Shallow embedding of the fraud-guard scoring pipeline (TypeScript sources)
in Lean 4, together with theorems settling the frozen claims about it.

JavaScript numbers are modelled as exact rationals (`ℚ`); where a claim
hinges on non-finite values (`NaN`, division by zero) a dedicated `JSNum`
type with an explicit non-finite constructor is used.  JavaScript
falsy-defaulting (`x || d`, where `0`, `""` and `undefined` are falsy) is
modelled explicitly by the `jsOr`-style helpers below.
-/

namespace FraudGuard

/-- Risk tiers, from `RiskLevel` in `interfaces/types.ts`. -/
inductive RiskLevel where
  | low
  | medium
  | high
deriving DecidableEq, Repr

/-- Recommended actions, from `Action` in `interfaces/types.ts`. -/
inductive Action where
  | accept
  | review
  | reject
deriving DecidableEq, Repr

/-- A resolved threshold pair, from `ThresholdsConfig` in `interfaces/types.ts`. -/
structure Thresholds where
  review : ℚ
  reject : ℚ
deriving DecidableEq, Repr

/-- Models the JavaScript expression `v || d` on an optional number:
`undefined` and `0` are falsy and yield the default. -/
def jsOrQ (v : Option ℚ) (d : ℚ) : ℚ :=
  match v with
  | some x => if x = 0 then d else x
  | none => d

/-- Models JavaScript truthiness of an optional boolean (`cfg?.enabled`). -/
def jsTruthy (v : Option Bool) : Bool :=
  match v with
  | some b => b
  | none => false

/-- Models JavaScript truthiness of an optional string: `undefined` and the
empty string are falsy.  Returns the string when truthy. -/
def jsStrVal (v : Option String) : Option String :=
  match v with
  | some s => if s = "" then none else some s
  | none => none

/-- `determineRiskLevel` from `src/utils/result-builder.ts` (lines 57-68). -/
def determineRiskLevel (score : ℚ) (thresholds : Thresholds) : RiskLevel :=
  if score ≥ thresholds.reject then RiskLevel.high
  else if score ≥ thresholds.review then RiskLevel.medium
  else RiskLevel.low

/-- `determineAction` from `src/utils/result-builder.ts` (lines 73-84). -/
def determineAction (score : ℚ) (thresholds : Thresholds) : Action :=
  if score ≥ thresholds.reject then Action.reject
  else if score ≥ thresholds.review then Action.review
  else Action.accept

/-- The decision part of `buildResult` from `src/utils/result-builder.ts`. -/
structure BuiltResult where
  modelScore : ℚ
  velocityScore : ℚ
  score : ℚ
  risk : RiskLevel
  action : Action
  reasons : List String
deriving DecidableEq, Repr

/-- `buildResult` from `src/utils/result-builder.ts` (lines 3-52), restricted
to its deterministic fields (the generated nanoid, timestamp and version
pass-throughs are omitted).  The threshold config is optional
(`thresholdsConfig?.review || 0.4`), and a configured threshold of `0` is
falsy, so it is replaced by the default. -/
def buildResult (modelScore velocityScore finalScore : ℚ)
    (velocityReasons : List String) (thresholdsConfig : Option Thresholds) :
    BuiltResult :=
  let thresholds : Thresholds :=
    { review := jsOrQ (thresholdsConfig.map (·.review)) 0.4
      reject := jsOrQ (thresholdsConfig.map (·.reject)) 0.7 }
  let risk := determineRiskLevel finalScore thresholds
  let action := determineAction finalScore thresholds
  let modelReason : String :=
    if modelScore ≥ 0.7 then "High fraud probability detected by AI model"
    else if modelScore ≥ 0.4 then "Moderate fraud risk indicated by transaction patterns"
    else "Transaction appears legitimate based on AI analysis"
  { modelScore := modelScore
    velocityScore := velocityScore
    score := finalScore
    risk := risk
    action := action
    reasons := modelReason :: velocityReasons }

/-- The resolved thresholds used by `buildResult`, factored out for reuse. -/
def resolveThresholds (thresholdsConfig : Option Thresholds) : Thresholds :=
  { review := jsOrQ (thresholdsConfig.map (·.review)) 0.4
    reject := jsOrQ (thresholdsConfig.map (·.reject)) 0.7 }

end FraudGuard

open FraudGuard

/-- Claim C1: for every score s in [0,1] and threshold pair with
0 ≤ review < reject ≤ 1, the decision policy is a total non-overlapping
partition: s ≥ reject gives HIGH/REJECT, review ≤ s < reject gives
MEDIUM/REVIEW, s < review gives LOW/ACCEPT (boundaries closed on the upper
side), and `determineRiskLevel` and `determineAction` always agree. -/
theorem decision_policy_total_partition (s review reject : ℚ)
    (h0 : 0 ≤ review) (h1 : review < reject) (h2 : reject ≤ 1)
    (hs0 : 0 ≤ s) (hs1 : s ≤ 1) :
    (reject ≤ s →
      determineRiskLevel s ⟨review, reject⟩ = RiskLevel.high ∧
      determineAction s ⟨review, reject⟩ = Action.reject) ∧
    (review ≤ s → s < reject →
      determineRiskLevel s ⟨review, reject⟩ = RiskLevel.medium ∧
      determineAction s ⟨review, reject⟩ = Action.review) ∧
    (s < review →
      determineRiskLevel s ⟨review, reject⟩ = RiskLevel.low ∧
      determineAction s ⟨review, reject⟩ = Action.accept) ∧
    (determineRiskLevel s ⟨review, reject⟩ = RiskLevel.high ↔
      determineAction s ⟨review, reject⟩ = Action.reject) ∧
    (determineRiskLevel s ⟨review, reject⟩ = RiskLevel.medium ↔
      determineAction s ⟨review, reject⟩ = Action.review) ∧
    (determineRiskLevel s ⟨review, reject⟩ = RiskLevel.low ↔
      determineAction s ⟨review, reject⟩ = Action.accept) := by
  unfold determineRiskLevel determineAction
  refine ⟨?_, ?_, ?_, ?_, ?_, ?_⟩ <;>
    · split_ifs with ha hb <;> simp_all <;> linarith

/-- Witness for C1: at the boundary scores 0.4 and 0.7 with thresholds
(0.4, 0.7) the policy resolves to MEDIUM/REVIEW and HIGH/REJECT. -/
theorem decision_policy_total_partition_witness :
    (determineRiskLevel 0.4 ⟨0.4, 0.7⟩ = RiskLevel.medium ∧
      determineAction 0.4 ⟨0.4, 0.7⟩ = Action.review) ∧
    (determineRiskLevel 0.7 ⟨0.4, 0.7⟩ = RiskLevel.high ∧
      determineAction 0.7 ⟨0.4, 0.7⟩ = Action.reject) :=
  ⟨(decision_policy_total_partition 0.4 0.4 0.7 (by norm_num) (by norm_num)
      (by norm_num) (by norm_num) (by norm_num)).2.1 (by norm_num) (by norm_num),
   (decision_policy_total_partition 0.7 0.4 0.7 (by norm_num) (by norm_num)
      (by norm_num) (by norm_num) (by norm_num)).1 (by norm_num)⟩

/-- Claim C9: because `buildResult` resolves thresholds with a falsy-or
fallback (`thresholdsConfig?.review || 0.4`), a configured review threshold
of 0 is silently replaced by the default 0.4 (and a reject threshold of 0 by
0.7), so result building with review = 0 classifies every score identically
to review = 0.4. -/
theorem build_result_zero_threshold_defaulted
    (m v s r rv : ℚ) (rs : List String) :
    buildResult m v s rs (some ⟨0, r⟩) = buildResult m v s rs (some ⟨0.4, r⟩) ∧
    (resolveThresholds (some ⟨0, r⟩)).review = 0.4 ∧
    buildResult m v s rs (some ⟨rv, 0⟩) = buildResult m v s rs (some ⟨rv, 0.7⟩) ∧
    (resolveThresholds (some ⟨rv, 0⟩)).reject = 0.7 := by
  refine ⟨?_, ?_, ?_, ?_⟩ <;>
    simp [buildResult, resolveThresholds, jsOrQ]

namespace FraudGuard

/-- Velocity check types, from `VelocityCheckType` in `interfaces/types.ts`. -/
inductive VelocityCheckType where
  | frequency
  | amount
  | failed
deriving DecidableEq, Repr

/-- Per-check result, from `VelocityCheckResult` in `interfaces/types.ts`. -/
structure VelocityCheckResult where
  type : VelocityCheckType
  score : ℚ
  triggered : Bool
  reasons : List String
deriving DecidableEq, Repr

/-- Aggregated velocity result, from `VelocityResult` in `interfaces/types.ts`. -/
structure VelocityResult where
  score : ℚ
  reasons : List String
  checks : List VelocityCheckResult
deriving DecidableEq, Repr

/-- `Math.max(...scores)` on a non-empty argument list `x :: xs`. -/
def mathMax (x : ℚ) (xs : List ℚ) : ℚ :=
  xs.foldl max x

/-- `scores.length > 0 ? Math.max(...scores) : 0`, the guarded maximum the
sources use on a possibly-empty score list. -/
def mathMaxList (l : List ℚ) : ℚ :=
  match l with
  | [] => 0
  | x :: xs => mathMax x xs

/-- `VelocityResultAggregator.aggregate` from `src/velocity/result-aggregator.ts`
(lines 8-23): MAX over all scores (0 when empty), reasons concatenated from
triggered checks, full check list carried through. -/
def aggregate (results : List VelocityCheckResult) : VelocityResult :=
  let scores := results.map (·.score)
  let finalScore : ℚ :=
    match scores with
    | [] => 0
    | x :: xs => mathMax x xs
  let allReasons := (results.filter (·.triggered)).flatMap (·.reasons)
  { score := finalScore, reasons := allReasons, checks := results }

theorem mathMax_step (x a : ℚ) (xs : List ℚ) :
    mathMax x (a :: xs) = mathMax (max x a) xs :=
  rfl

theorem mathMax_mem (x : ℚ) (xs : List ℚ) : mathMax x xs ∈ x :: xs := by
  induction xs generalizing x with
  | nil => simp [mathMax]
  | cons a xs ih =>
    rw [mathMax_step]
    have h := ih (max x a)
    rcases max_choice x a with hm | hm <;> rw [hm] at h ⊢ <;>
      rcases List.mem_cons.mp h with h1 | h1 <;> simp [h1]

theorem le_mathMax (x : ℚ) (xs : List ℚ) : ∀ y ∈ x :: xs, y ≤ mathMax x xs := by
  induction xs generalizing x with
  | nil => simp [mathMax]
  | cons a xs ih =>
    intro y hy
    rw [mathMax_step]
    have hx : x ≤ mathMax (max x a) xs :=
      le_trans (le_max_left x a) (ih (max x a) (max x a) (by simp))
    have ha : a ≤ mathMax (max x a) xs :=
      le_trans (le_max_right x a) (ih (max x a) (max x a) (by simp))
    rcases List.mem_cons.mp hy with h1 | h1
    · exact h1 ▸ hx
    · rcases List.mem_cons.mp h1 with h2 | h2
      · exact h2 ▸ ha
      · exact ih (max x a) y (by simp [h2])

/-- Scoring weight configuration, from `VelocityScoringConfig` in
`interfaces/types.ts`. -/
structure VelocityScoringConfig where
  model_weight : Option ℚ
  velocity_weight : Option ℚ
deriving DecidableEq, Repr

/-- One sliding time window, from `TimeWindowConfig` in `interfaces/types.ts`. -/
structure TimeWindowConfig where
  period_minutes : ℕ
  max_transactions : Option ℕ
  max_failed : Option ℕ
  max_amount : Option ℚ
  score_adjustment : ℚ
deriving DecidableEq, Repr

/-- Spike-detection sub-configuration, from `SpikeDetectionConfig` in
`interfaces/types.ts`. -/
structure SpikeDetectionConfig where
  enabled : Option Bool
  lookback_days : Option ℕ
  multiplier : Option ℚ
  score_adjustment : Option ℚ
deriving DecidableEq, Repr

/-- `FrequencyConfig` from `interfaces/types.ts`. -/
structure FrequencyConfig where
  enabled : Option Bool
  time_windows : Option (List TimeWindowConfig)
deriving DecidableEq, Repr

/-- `AmountConfig` from `interfaces/types.ts`. -/
structure AmountConfig where
  enabled : Option Bool
  time_windows : Option (List TimeWindowConfig)
  spike_detection : Option SpikeDetectionConfig
deriving DecidableEq, Repr

/-- `FailedTransactionsConfig` from `interfaces/types.ts`. -/
structure FailedTransactionsConfig where
  enabled : Option Bool
  time_windows : Option (List TimeWindowConfig)
deriving DecidableEq, Repr

/-- `VelocityConfig` from `interfaces/types.ts`. -/
structure VelocityConfig where
  enabled : Option Bool
  scoring : Option VelocityScoringConfig
  frequency : Option FrequencyConfig
  amount : Option AmountConfig
  failed_transactions : Option FailedTransactionsConfig
deriving DecidableEq, Repr

/-- `velocityResult?.score || 0` from `FraudGuard.check` (core class,
line 100): the velocity score used for fusion, 0 when velocity did not run. -/
def checkVelocityScore (velocityResult : Option VelocityResult) : ℚ :=
  jsOrQ (velocityResult.map (·.score)) 0

/-- The score-combination step of `FraudGuard.check` (lines 98-110 of the
core class): weights resolved by falsy-or against defaults 0.6 / 0.4, and the
weighted sum taken only when velocity is enabled and its score is positive.
No clamping is applied to the result. -/
def checkFinalScore (velocity : Option VelocityConfig) (modelScore : ℚ)
    (velocityResult : Option VelocityResult) : ℚ :=
  let velocityScore := checkVelocityScore velocityResult
  let modelWeight := jsOrQ ((velocity.bind (·.scoring)).bind (·.model_weight)) 0.6
  let velocityWeight := jsOrQ ((velocity.bind (·.scoring)).bind (·.velocity_weight)) 0.4
  if jsTruthy (velocity.bind (·.enabled)) = true ∧ 0 < velocityScore then
    modelScore * modelWeight + velocityScore * velocityWeight
  else
    modelScore

end FraudGuard

/-- Claim C3: `aggregate` returns the maximum of the input scores (0 and no
reasons for the empty list), reasons are exactly the concatenation of the
triggered inputs' reasons in evaluation order, and all input check results
are carried through. -/
theorem aggregate_max_policy (results : List VelocityCheckResult) :
    (aggregate [] = { score := 0, reasons := [], checks := [] }) ∧
    (results ≠ [] →
      (aggregate results).score ∈ results.map (·.score) ∧
      ∀ r ∈ results, r.score ≤ (aggregate results).score) ∧
    (aggregate results).reasons =
      (results.filter (·.triggered)).flatMap (·.reasons) ∧
    (aggregate results).checks = results := by
  refine ⟨rfl, ?_, rfl, rfl⟩
  intro hne
  match results with
  | [] => exact absurd rfl hne
  | r :: rs =>
    constructor
    · simpa [aggregate] using mathMax_mem r.score (rs.map (·.score))
    · intro q hq
      rcases List.mem_cons.mp hq with h | h
      · simpa [aggregate, h] using
          le_mathMax r.score (rs.map (·.score)) q.score (by simp [h])
      · simpa [aggregate] using
          le_mathMax r.score (rs.map (·.score)) q.score
            (by simp; right; exact ⟨q, h, rfl⟩)

/-- Witness for C3: a two-element list where the aggregate score is the max
(0.3), not the sum (0.5), together with the empty-list case. -/
theorem aggregate_max_policy_witness :
    (aggregate [] = { score := 0, reasons := [], checks := [] }) ∧
    (aggregate [⟨VelocityCheckType.frequency, 0.2, true, ["a"]⟩,
                ⟨VelocityCheckType.amount, 0.3, true, ["b"]⟩]).score ∈
      [(0.2 : ℚ), 0.3] ∧
    (aggregate [⟨VelocityCheckType.frequency, 0.2, true, ["a"]⟩,
                ⟨VelocityCheckType.amount, 0.3, true, ["b"]⟩]).score ≠ 0.5 := by
  obtain ⟨h1, h2, -, -⟩ :=
    aggregate_max_policy [⟨VelocityCheckType.frequency, 0.2, true, ["a"]⟩,
                          ⟨VelocityCheckType.amount, 0.3, true, ["b"]⟩]
  have hs : (aggregate [⟨VelocityCheckType.frequency, 0.2, true, ["a"]⟩,
                ⟨VelocityCheckType.amount, 0.3, true, ["b"]⟩]).score = 0.3 := by
    simp only [aggregate, List.map_cons, List.map_nil, mathMax_step, mathMax,
      List.foldl_cons, List.foldl_nil]
    rw [max_eq_right (by norm_num)]
  refine ⟨h1, ?_, by rw [hs]; norm_num⟩
  simpa using (h2 (List.cons_ne_nil _ _)).1

/-- Claim C2 (amended): in `check()`, when velocity is disabled or the
velocity score is 0 the final score is exactly the model score, regardless of
the configured weights; when velocity is enabled and the velocity score is
positive the final score is modelScore·modelWeight + velocityScore·velocityWeight
with the weights resolved by the falsy-or defaults 0.6 / 0.4.  The fused
score is NOT clamped to [0,1] (see the counterexample). -/
theorem fusion_formula (velocity : Option VelocityConfig) (modelScore : ℚ)
    (velocityResult : Option VelocityResult) :
    (jsTruthy (velocity.bind (·.enabled)) = false →
      checkFinalScore velocity modelScore velocityResult = modelScore) ∧
    (checkVelocityScore velocityResult = 0 →
      checkFinalScore velocity modelScore velocityResult = modelScore) ∧
    (jsTruthy (velocity.bind (·.enabled)) = true →
      0 < checkVelocityScore velocityResult →
      checkFinalScore velocity modelScore velocityResult =
        modelScore * jsOrQ ((velocity.bind (·.scoring)).bind (·.model_weight)) 0.6 +
        checkVelocityScore velocityResult *
          jsOrQ ((velocity.bind (·.scoring)).bind (·.velocity_weight)) 0.4) := by
  unfold checkFinalScore
  refine ⟨fun h => by simp [h], fun h => by simp [h], fun h1 h2 => by simp [h1, h2]⟩

/-- Witness for C2: with velocity absent the fused score is the raw model
score; with velocity enabled, no scoring config and a positive velocity
score, it is the weighted sum with the default weights. -/
theorem fusion_formula_witness :
    checkFinalScore none 0.42 none = 0.42 ∧
    checkFinalScore
        (some { enabled := some true, scoring := none, frequency := none,
                amount := none, failed_transactions := none })
        0.5 (some { score := 0.5, reasons := [], checks := [] }) =
      0.5 * 0.6 + 0.5 * 0.4 := by
  constructor
  · exact (fusion_formula none 0.42 none).1 rfl
  · have hvs : checkVelocityScore (some { score := 0.5, reasons := [], checks := [] }) = 0.5 := by
      norm_num [checkVelocityScore, jsOrQ]
    have h := (fusion_formula
        (some { enabled := some true, scoring := none, frequency := none,
                amount := none, failed_transactions := none })
        0.5 (some { score := 0.5, reasons := [], checks := [] })).2.2
        rfl (by rw [hvs]; norm_num)
    rw [hvs] at h
    simpa [jsOrQ] using h

/-- Counterexample for C2 as stated: the fused score is not clamped to
[0,1].  With model score 1, velocity score 1 and configured weights
0.6 / 0.8 (the weights are not required to sum to 1), `check()` produces the
final score 1.4 > 1. -/
theorem fusion_not_clamped_counterexample :
    checkFinalScore
        (some { enabled := some true,
                scoring := some { model_weight := some 0.6, velocity_weight := some 0.8 },
                frequency := none, amount := none, failed_transactions := none })
        1 (some { score := 1, reasons := [], checks := [] }) = 1.4 ∧
    ¬(checkFinalScore
        (some { enabled := some true,
                scoring := some { model_weight := some 0.6, velocity_weight := some 0.8 },
                frequency := none, amount := none, failed_transactions := none })
        1 (some { score := 1, reasons := [], checks := [] }) ≤ 1) := by
  have h : checkFinalScore
      (some { enabled := some true,
              scoring := some { model_weight := some 0.6, velocity_weight := some 0.8 },
              frequency := none, amount := none, failed_transactions := none })
      1 (some { score := 1, reasons := [], checks := [] }) = 1.4 := by
    norm_num [checkFinalScore, checkVelocityScore, jsOrQ, jsTruthy]
  exact ⟨h, by rw [h]; norm_num⟩

namespace FraudGuard

/-- The fourteen category enum values, in the declared order of
`TransactionCategory` in `interfaces/types.ts` (also the field order of the
one-hot record in `model/feature-extractor.ts`). -/
def categoryStrings : List String :=
  ["entertainment", "food_dining", "gas_transport", "grocery_net", "grocery_pos",
   "health_fitness", "home", "kids_pets", "misc_net", "misc_pos",
   "personal_care", "shopping_net", "shopping_pos", "travel"]

/-- `oneHotEncodeCategory` from `src/model/feature-extractor.ts`
(lines 30-111).  The TypeScript enum is a string at runtime and the switch
falls through to `throw new ModelError(...)` for unknown values, so the input
is modelled as a string and the error branch as `Except.error`.  The listed
slots are the fields of the returned record, in declared order. -/
def oneHotEncodeCategory (category : String) : Except String (List ℚ) :=
  if category = "entertainment" then .ok [1, 0, 0, 0, 0, 0, 0, 0, 0, 0, 0, 0, 0, 0]
  else if category = "food_dining" then .ok [0, 1, 0, 0, 0, 0, 0, 0, 0, 0, 0, 0, 0, 0]
  else if category = "gas_transport" then .ok [0, 0, 1, 0, 0, 0, 0, 0, 0, 0, 0, 0, 0, 0]
  else if category = "grocery_net" then .ok [0, 0, 0, 1, 0, 0, 0, 0, 0, 0, 0, 0, 0, 0]
  else if category = "grocery_pos" then .ok [0, 0, 0, 0, 1, 0, 0, 0, 0, 0, 0, 0, 0, 0]
  else if category = "health_fitness" then .ok [0, 0, 0, 0, 0, 1, 0, 0, 0, 0, 0, 0, 0, 0]
  else if category = "home" then .ok [0, 0, 0, 0, 0, 0, 1, 0, 0, 0, 0, 0, 0, 0]
  else if category = "kids_pets" then .ok [0, 0, 0, 0, 0, 0, 0, 1, 0, 0, 0, 0, 0, 0]
  else if category = "misc_net" then .ok [0, 0, 0, 0, 0, 0, 0, 0, 1, 0, 0, 0, 0, 0]
  else if category = "misc_pos" then .ok [0, 0, 0, 0, 0, 0, 0, 0, 0, 1, 0, 0, 0, 0]
  else if category = "personal_care" then .ok [0, 0, 0, 0, 0, 0, 0, 0, 0, 0, 1, 0, 0, 0]
  else if category = "shopping_net" then .ok [0, 0, 0, 0, 0, 0, 0, 0, 0, 0, 0, 1, 0, 0]
  else if category = "shopping_pos" then .ok [0, 0, 0, 0, 0, 0, 0, 0, 0, 0, 0, 0, 1, 0]
  else if category = "travel" then .ok [0, 0, 0, 0, 0, 0, 0, 0, 0, 0, 0, 0, 0, 1]
  else .error ("Unknown category: " ++ category)

end FraudGuard

/-- Claim C4: for every category in the closed 14-value enum, one-hot
encoding yields a 14-slot vector with a 1 exactly in that category's slot and
0 everywhere else; any value outside the enum yields a hard error (no slots
are emitted at all). -/
theorem onehot_exactly_one (category : String) :
    (category ∈ categoryStrings →
      ∃ v, oneHotEncodeCategory category = Except.ok v ∧
        v.length = 14 ∧
        v.get? (categoryStrings.indexOf category) = some 1 ∧
        ∀ i < 14, i ≠ categoryStrings.indexOf category → v.get? i = some 0) ∧
    (category ∉ categoryStrings →
      oneHotEncodeCategory category = Except.error ("Unknown category: " ++ category)) := by
  constructor
  · intro h
    simp only [categoryStrings] at h
    fin_cases h <;> exact ⟨_, rfl, by decide, by decide, by decide⟩
  · intro h
    unfold oneHotEncodeCategory
    rw [if_neg (fun he => h (by rw [he]; decide)),
        if_neg (fun he => h (by rw [he]; decide)),
        if_neg (fun he => h (by rw [he]; decide)),
        if_neg (fun he => h (by rw [he]; decide)),
        if_neg (fun he => h (by rw [he]; decide)),
        if_neg (fun he => h (by rw [he]; decide)),
        if_neg (fun he => h (by rw [he]; decide)),
        if_neg (fun he => h (by rw [he]; decide)),
        if_neg (fun he => h (by rw [he]; decide)),
        if_neg (fun he => h (by rw [he]; decide)),
        if_neg (fun he => h (by rw [he]; decide)),
        if_neg (fun he => h (by rw [he]; decide)),
        if_neg (fun he => h (by rw [he]; decide)),
        if_neg (fun he => h (by rw [he]; decide))]

/-- Witness for C4: "travel" encodes with the 1 in slot 13, and the
out-of-enum value "bitcoin" is a hard error. -/
theorem onehot_exactly_one_witness :
    (∃ v, oneHotEncodeCategory "travel" = Except.ok v ∧ v.get? 13 = some 1) ∧
    oneHotEncodeCategory "bitcoin" = Except.error ("Unknown category: " ++ "bitcoin") := by
  constructor
  · obtain ⟨v, hv, -, h1, -⟩ := (onehot_exactly_one "travel").1 (by decide)
    have hidx : categoryStrings.indexOf "travel" = 13 := by decide
    rw [hidx] at h1
    exact ⟨v, hv, h1⟩
  · exact (onehot_exactly_one "bitcoin").2 (by decide)

namespace FraudGuard

/-- Transaction input, from `TransactionData` in `interfaces/types.ts`,
restricted to the fields consumed by the velocity checks and the
optional-field adjustments (timestamp, category and id are routed to other
components and are not needed here). -/
structure TransactionData where
  amount : ℚ
  customerId : Option String
  walletBalance : Option ℚ
  ipAddress : Option String
  deviceId : Option String
deriving DecidableEq, Repr

/-- The read-only storage query contract used by the velocity checks
(`VelocityStorageQuery` in `velocity/storage-query.ts`), modelled as pure
response functions: behaviour of the behavioral history store. -/
structure VelocityStorageQuery where
  countTransactions : String → String → ℕ → ℕ
  countFailedTransactions : String → ℕ → ℕ
  sumAmounts : String → ℕ → ℚ
  getCustomerAgeDays : String → ℕ
  getAverageDailySpending : String → ℕ → ℚ
  getTodaySpending : String → ℚ

/-- Prints an optional number the way a JS template literal does
(`undefined` for a missing value). -/
def jsShowOptNat (v : Option ℕ) : String :=
  match v with
  | some n => toString n
  | none => "undefined"

namespace FrequencyCheck

/-- `window?.max_transactions ? window?.max_transactions : 50` from
`FrequencyCheck.check` (velocity/checks/frequency-check.ts line 239 of the
concatenated source): a missing — or zero, since 0 is falsy — limit defaults
to 50. -/
def resolvedMaxTransactions (window : TimeWindowConfig) : ℕ :=
  match window.max_transactions with
  | some n => if n = 0 then 50 else n
  | none => 50

/-- The customer-dimension branch of one frequency window (step 1 of the
window loop). -/
def customerPart (storageQuery : VelocityStorageQuery) (transaction : TransactionData)
    (window : TimeWindowConfig) (maxTransactions : ℕ) : List ℚ × List String :=
  match jsStrVal transaction.customerId with
  | some cid =>
    let customerCount := storageQuery.countTransactions "customer_id" cid window.period_minutes
    if customerCount > maxTransactions then
      ([window.score_adjustment],
       ["Customer: " ++ toString customerCount ++ " transactions in " ++
        toString window.period_minutes ++ " minutes (limit: " ++
        toString maxTransactions ++ ")"])
    else ([], [])
  | none => ([], [])

/-- The device-dimension branch of one frequency window (step 2). -/
def devicePart (storageQuery : VelocityStorageQuery) (transaction : TransactionData)
    (window : TimeWindowConfig) (maxTransactions : ℕ) : List ℚ × List String :=
  match jsStrVal transaction.deviceId with
  | some did =>
    let deviceCount := storageQuery.countTransactions "device_id" did window.period_minutes
    if deviceCount > maxTransactions then
      ([window.score_adjustment],
       ["Device: " ++ toString deviceCount ++ " transactions in " ++
        toString window.period_minutes ++ " minutes (limit: " ++
        toString maxTransactions ++ ")"])
    else ([], [])
  | none => ([], [])

/-- The IP-dimension branch of one frequency window (step 3).  Note the
source interpolates the raw `window.max_transactions` into this reason, not
the defaulted limit. -/
def ipPart (storageQuery : VelocityStorageQuery) (transaction : TransactionData)
    (window : TimeWindowConfig) (maxTransactions : ℕ) : List ℚ × List String :=
  match jsStrVal transaction.ipAddress with
  | some ip =>
    let ipCount := storageQuery.countTransactions "ip_address" ip window.period_minutes
    if ipCount > maxTransactions then
      ([window.score_adjustment],
       ["IP: " ++ toString ipCount ++ " transactions in " ++
        toString window.period_minutes ++ " minutes (limit: " ++
        jsShowOptNat window.max_transactions ++ ")"])
    else ([], [])
  | none => ([], [])

/-- The body of the window loop of `FrequencyCheck.check`: the
`windowScores` and `windowReasons` accumulated for one time window. -/
def checkWindow (storageQuery : VelocityStorageQuery) (transaction : TransactionData)
    (window : TimeWindowConfig) : List ℚ × List String :=
  let maxTransactions := resolvedMaxTransactions window
  let c := customerPart storageQuery transaction window maxTransactions
  let d := devicePart storageQuery transaction window maxTransactions
  let i := ipPart storageQuery transaction window maxTransactions
  (c.1 ++ d.1 ++ i.1, c.2 ++ d.2 ++ i.2)

/-- `FrequencyCheck.check` from `velocity/checks/frequency-check.ts`
(lines 221-309 of the concatenated source): per window, MAX over the
triggered dimensions; across windows, MAX over per-window scores; triggered
iff the final score is positive. -/
def check (config : FrequencyConfig) (storageQuery : VelocityStorageQuery)
    (transaction : TransactionData) : VelocityCheckResult :=
  match config.time_windows with
  | none =>
    { type := VelocityCheckType.frequency, score := 0, triggered := false, reasons := [] }
  | some windows =>
    if windows.isEmpty then
      { type := VelocityCheckType.frequency, score := 0, triggered := false, reasons := [] }
    else
      let pairs := windows.map (checkWindow storageQuery transaction)
      let scores := pairs.filterMap (fun p =>
        match p.1 with
        | [] => none
        | x :: xs => some (mathMax x xs))
      let reasons := (pairs.filter (fun p => !p.1.isEmpty)).flatMap (·.2)
      let finalScore : ℚ := mathMaxList scores
      { type := VelocityCheckType.frequency, score := finalScore,
        triggered := decide (0 < finalScore), reasons := reasons }

end FrequencyCheck

end FraudGuard

theorem foldr_max_swap (x a : ℚ) (xs : List ℚ) :
    xs.foldr max (max x a) = max a (xs.foldr max x) := by
  induction xs with
  | nil => exact max_comm x a
  | cons b xs ih => simp only [List.foldr_cons, ih, max_left_comm]

theorem mathMax_eq_foldr (x : ℚ) (xs : List ℚ) : mathMax x xs = xs.foldr max x := by
  induction xs generalizing x with
  | nil => rfl
  | cons a xs ih => rw [mathMax_step, ih, List.foldr_cons, foldr_max_swap]

theorem mathMax_const (a x : ℚ) (xs : List ℚ) (h : ∀ y ∈ x :: xs, y = a) :
    mathMax x xs = a :=
  h _ (mathMax_mem x xs)

theorem foldr_max_zero_nonneg (l : List ℚ) : 0 ≤ l.foldr max 0 := by
  induction l with
  | nil => exact le_refl 0
  | cons x xs ih => exact le_trans ih (le_max_right x _)

theorem mathMaxList_eq_foldr_zero (l : List ℚ) (h : ∀ x ∈ l, 0 ≤ x) :
    mathMaxList l = l.foldr max 0 := by
  match l with
  | [] => rfl
  | x :: xs =>
    have hx : max 0 x = x := max_eq_right (h x (by simp))
    calc mathMaxList (x :: xs) = xs.foldr max x := mathMax_eq_foldr x xs
      _ = xs.foldr max (max 0 x) := by rw [hx]
      _ = max x (xs.foldr max 0) := foldr_max_swap 0 x xs
      _ = (x :: xs).foldr max 0 := (List.foldr_cons xs).symm

theorem customerPart_spec (q : VelocityStorageQuery) (tx : TransactionData)
    (w : TimeWindowConfig) (maxT : ℕ) :
    (∀ x ∈ (FrequencyCheck.customerPart q tx w maxT).1, x = w.score_adjustment) ∧
    (FrequencyCheck.customerPart q tx w maxT).2.length =
      (FrequencyCheck.customerPart q tx w maxT).1.length := by
  unfold FrequencyCheck.customerPart
  rcases jsStrVal tx.customerId with - | c
  · simp
  · dsimp only
    split_ifs <;> simp

theorem devicePart_spec (q : VelocityStorageQuery) (tx : TransactionData)
    (w : TimeWindowConfig) (maxT : ℕ) :
    (∀ x ∈ (FrequencyCheck.devicePart q tx w maxT).1, x = w.score_adjustment) ∧
    (FrequencyCheck.devicePart q tx w maxT).2.length =
      (FrequencyCheck.devicePart q tx w maxT).1.length := by
  unfold FrequencyCheck.devicePart
  rcases jsStrVal tx.deviceId with - | d
  · simp
  · dsimp only
    split_ifs <;> simp

theorem ipPart_spec (q : VelocityStorageQuery) (tx : TransactionData)
    (w : TimeWindowConfig) (maxT : ℕ) :
    (∀ x ∈ (FrequencyCheck.ipPart q tx w maxT).1, x = w.score_adjustment) ∧
    (FrequencyCheck.ipPart q tx w maxT).2.length =
      (FrequencyCheck.ipPart q tx w maxT).1.length := by
  unfold FrequencyCheck.ipPart
  rcases jsStrVal tx.ipAddress with - | i
  · simp
  · dsimp only
    split_ifs <;> simp

theorem checkWindow_spec (q : VelocityStorageQuery) (tx : TransactionData)
    (w : TimeWindowConfig) :
    (∀ x ∈ (FrequencyCheck.checkWindow q tx w).1, x = w.score_adjustment) ∧
    (FrequencyCheck.checkWindow q tx w).2.length =
      (FrequencyCheck.checkWindow q tx w).1.length := by
  obtain ⟨hc1, hc2⟩ := customerPart_spec q tx w (FrequencyCheck.resolvedMaxTransactions w)
  obtain ⟨hd1, hd2⟩ := devicePart_spec q tx w (FrequencyCheck.resolvedMaxTransactions w)
  obtain ⟨hi1, hi2⟩ := ipPart_spec q tx w (FrequencyCheck.resolvedMaxTransactions w)
  constructor
  · intro x hx
    unfold FrequencyCheck.checkWindow at hx
    simp only [List.mem_append] at hx
    rcases hx with (h | h) | h
    exacts [hc1 x h, hd1 x h, hi1 x h]
  · unfold FrequencyCheck.checkWindow
    simp only [List.length_append, hc2, hd2, hi2]

theorem freq_scores_nonneg (q : VelocityStorageQuery) (tx : TransactionData)
    (windows : List TimeWindowConfig)
    (hpos : ∀ win ∈ windows, 0 ≤ win.score_adjustment) :
    ∀ s ∈ (windows.map (FrequencyCheck.checkWindow q tx)).filterMap (fun p =>
        match p.1 with
        | [] => none
        | x :: xs => some (mathMax x xs)), 0 ≤ s := by
  intro s hs
  simp only [List.mem_filterMap, List.mem_map] at hs
  obtain ⟨p, ⟨win, hwin, rfl⟩, hp⟩ := hs
  rcases hl : (FrequencyCheck.checkWindow q tx win).1 with - | ⟨x, xs⟩
  · rw [hl] at hp
    exact absurd hp (by simp)
  · rw [hl] at hp
    simp only [Option.some.injEq] at hp
    have hconst : mathMax x xs = win.score_adjustment :=
      mathMax_const _ x xs (fun y hy => (checkWindow_spec q tx win).1 y (hl.symm ▸ hy))
    rw [← hp, hconst]
    exact hpos win hwin

theorem freq_score_foldr (q : VelocityStorageQuery) (tx : TransactionData)
    (windows : List TimeWindowConfig)
    (hpos : ∀ win ∈ windows, 0 ≤ win.score_adjustment) :
    ((windows.map (FrequencyCheck.checkWindow q tx)).filterMap (fun p =>
        match p.1 with
        | [] => none
        | x :: xs => some (mathMax x xs))).foldr max 0 =
    windows.foldr (fun win acc =>
      max (if (FrequencyCheck.checkWindow q tx win).1 = [] then 0 else win.score_adjustment)
        acc) 0 := by
  induction windows with
  | nil => rfl
  | cons w ws ih =>
    have ihw := ih (fun win hwin => hpos win (List.mem_cons_of_mem w hwin))
    simp only [List.map_cons, List.filterMap_cons, List.foldr_cons]
    rcases hl : (FrequencyCheck.checkWindow q tx w).1 with - | ⟨x, xs⟩
    · simp only [hl, eq_self_iff_true, if_true]
      rw [← ihw]
      exact (max_eq_right (foldr_max_zero_nonneg _)).symm
    · simp only [hl]
      have hconst : mathMax x xs = w.score_adjustment :=
        mathMax_const _ x xs (fun y hy => (checkWindow_spec q tx w).1 y (hl.symm ▸ hy))
      rw [List.foldr_cons, hconst, ihw]
      simp

theorem freq_check_score (q : VelocityStorageQuery) (tx : TransactionData)
    (en : Option Bool) (windows : List TimeWindowConfig)
    (hpos : ∀ win ∈ windows, 0 ≤ win.score_adjustment) :
    (FrequencyCheck.check ⟨en, some windows⟩ q tx).score =
      windows.foldr (fun win acc =>
        max (if (FrequencyCheck.checkWindow q tx win).1 = [] then 0
          else win.score_adjustment) acc) 0 := by
  cases windows with
  | nil => rfl
  | cons w ws =>
    show mathMaxList (((w :: ws).map (FrequencyCheck.checkWindow q tx)).filterMap (fun p =>
        match p.1 with
        | [] => none
        | x :: xs => some (mathMax x xs))) = _
    rw [mathMaxList_eq_foldr_zero _ (freq_scores_nonneg q tx (w :: ws) hpos),
      freq_score_foldr q tx (w :: ws) hpos]

namespace FraudGuard

/-- The time window of end-to-end scenario C: 10 minutes, limit 5,
score adjustment 0.2. -/
def windowC : TimeWindowConfig :=
  { period_minutes := 10, max_transactions := some 5, max_failed := none,
    max_amount := none, score_adjustment := 0.2 }

/-- A transaction that carries only a customer id, for scenario C. -/
def txC : TransactionData :=
  { amount := 100, customerId := some "c1", walletBalance := none,
    ipAddress := none, deviceId := none }

/-- A behavioral history store whose transaction count for every subject and
window is `n`. -/
def storageCount (n : ℕ) : VelocityStorageQuery :=
  { countTransactions := fun _ _ _ => n
    countFailedTransactions := fun _ _ => 0
    sumAmounts := fun _ _ => 0
    getCustomerAgeDays := fun _ => 0
    getAverageDailySpending := fun _ _ => 0
    getTodaySpending := fun _ => 0 }

end FraudGuard

/-- Claim C5: the frequency check is a two-level max.  Within one window,
every triggered dimension contributes the same window `score_adjustment`
(so the within-window max is that adjustment), while one reason is emitted
per triggered dimension; a window with no explicit `max_transactions` limit
uses the default ceiling 50; across windows the check's score is the max of
the per-window scores (0 for a window with no triggered dimension); and in
scenario C a customer count of 7 against window (10 min, max 5, 0.2) gives
triggered with score 0.2, while a count of 3 gives untriggered with 0. -/
theorem frequency_two_level_max (q : VelocityStorageQuery) (tx : TransactionData)
    (en : Option Bool) (windows : List TimeWindowConfig) (w : TimeWindowConfig)
    (hpos : ∀ win ∈ windows, 0 ≤ win.score_adjustment) :
    (∀ x ∈ (FrequencyCheck.checkWindow q tx w).1, x = w.score_adjustment) ∧
    (FrequencyCheck.checkWindow q tx w).2.length =
      (FrequencyCheck.checkWindow q tx w).1.length ∧
    (w.max_transactions = none → FrequencyCheck.resolvedMaxTransactions w = 50) ∧
    (FrequencyCheck.check ⟨en, some windows⟩ q tx).score =
      windows.foldr (fun win acc =>
        max (if (FrequencyCheck.checkWindow q tx win).1 = [] then 0
          else win.score_adjustment) acc) 0 ∧
    (FrequencyCheck.check ⟨some true, some [windowC]⟩ (storageCount 7) txC).score = 0.2 ∧
    (FrequencyCheck.check ⟨some true, some [windowC]⟩ (storageCount 7) txC).triggered = true ∧
    (FrequencyCheck.check ⟨some true, some [windowC]⟩ (storageCount 3) txC).score = 0 ∧
    (FrequencyCheck.check ⟨some true, some [windowC]⟩ (storageCount 3) txC).triggered = false := by
  have hj : jsStrVal (some "c1") = some "c1" := rfl
  have hn : jsStrVal none = none := rfl
  have hw7 : (FrequencyCheck.checkWindow (storageCount 7) txC windowC).1 = [(0.2 : ℚ)] := by
    simp [FrequencyCheck.checkWindow, FrequencyCheck.customerPart,
      FrequencyCheck.devicePart, FrequencyCheck.ipPart,
      FrequencyCheck.resolvedMaxTransactions, txC, windowC, storageCount, hj, hn]
  have hw3 : (FrequencyCheck.checkWindow (storageCount 3) txC windowC).1 = [] := by
    simp [FrequencyCheck.checkWindow, FrequencyCheck.customerPart,
      FrequencyCheck.devicePart, FrequencyCheck.ipPart,
      FrequencyCheck.resolvedMaxTransactions, txC, windowC, storageCount, hj, hn]
  have hs7 : (FrequencyCheck.check ⟨some true, some [windowC]⟩ (storageCount 7) txC).score
      = 0.2 := by
    simp [FrequencyCheck.check, hw7, mathMaxList, mathMax]
  have hs3 : (FrequencyCheck.check ⟨some true, some [windowC]⟩ (storageCount 3) txC).score
      = 0 := by
    simp [FrequencyCheck.check, hw3, mathMaxList]
  have ht7 : (FrequencyCheck.check ⟨some true, some [windowC]⟩ (storageCount 7) txC).triggered
      = decide (0 < (FrequencyCheck.check ⟨some true, some [windowC]⟩
          (storageCount 7) txC).score) := rfl
  have ht3 : (FrequencyCheck.check ⟨some true, some [windowC]⟩ (storageCount 3) txC).triggered
      = decide (0 < (FrequencyCheck.check ⟨some true, some [windowC]⟩
          (storageCount 3) txC).score) := rfl
  refine ⟨(checkWindow_spec q tx w).1, (checkWindow_spec q tx w).2, ?_,
    freq_check_score q tx en windows hpos, hs7, ?_, hs3, ?_⟩
  · intro h
    simp [FrequencyCheck.resolvedMaxTransactions, h]
  · rw [ht7, hs7]
    norm_num
  · rw [ht3, hs3]
    norm_num

/-- Witness for C5: the theorem applied to the concrete scenario-C inputs. -/
theorem frequency_two_level_max_witness :
    (FrequencyCheck.check ⟨some true, some [windowC]⟩ (storageCount 7) txC).score = 0.2 ∧
    (FrequencyCheck.check ⟨some true, some [windowC]⟩ (storageCount 3) txC).triggered = false := by
  have h := frequency_two_level_max (storageCount 7) txC (some true) [windowC] windowC
    (by intro win hwin; rw [List.mem_singleton] at hwin; subst hwin; norm_num [windowC])
  exact ⟨h.2.2.2.2.1, h.2.2.2.2.2.2.2⟩

namespace FraudGuard

/-- The checks scheduled by `VelocityService.checkVelocity`
(services/velocity.service.ts, lines 214-241 of the concatenated source), in
its fixed order: frequency, amount, failed — each included when its config
section is enabled. -/
def enabledChecks (config : VelocityConfig) : List VelocityCheckType :=
  (if jsTruthy (config.frequency.bind (·.enabled)) then [VelocityCheckType.frequency] else []) ++
  (if jsTruthy (config.amount.bind (·.enabled)) then [VelocityCheckType.amount] else []) ++
  (if jsTruthy (config.failed_transactions.bind (·.enabled)) then [VelocityCheckType.failed] else [])

/-- The zero-score stand-in `checkVelocity` pushes for a rejected check
promise (lines 268-273 of the concatenated source). -/
def standInResult (name : VelocityCheckType) : VelocityCheckResult :=
  { type := name, score := 0, triggered := false, reasons := [] }

/-- `VelocityService.checkVelocity` (lines 214-283 of the concatenated
source).  The concurrent execution via `Promise.allSettled` is modelled by
`outcomes`, the settled result of each scheduled check: `ok` a check result
for a fulfilled promise, `error` for one rejected with a storage-layer
failure.  A rejected check is replaced by its stand-in; the rest aggregate
normally.  The function is total: no outcome makes it propagate an error. -/
def checkVelocity (config : VelocityConfig)
    (outcomes : VelocityCheckType → Except String VelocityCheckResult) : VelocityResult :=
  let checkPromises := enabledChecks config
  if checkPromises.isEmpty then
    { score := 0, reasons := [], checks := [] }
  else
    aggregate (checkPromises.map (fun name =>
      match outcomes name with
      | Except.ok r => r
      | Except.error _ => standInResult name))

end FraudGuard

/-- Claim C6: if one enabled velocity check fails with a storage-layer
error, `checkVelocity` still returns (it is total by construction): the
failed check appears in the returned check list as a stand-in with its check
type, score 0, triggered false and no reasons; every fulfilled check's
result still appears; the result is exactly the normal aggregation of that
check list; and one entry is present per enabled check. -/
theorem velocity_storage_failure_contained (config : VelocityConfig)
    (outcomes : VelocityCheckType → Except String VelocityCheckResult)
    (t : VelocityCheckType) (msg : String)
    (ht : t ∈ enabledChecks config) (herr : outcomes t = Except.error msg) :
    standInResult t ∈ (checkVelocity config outcomes).checks ∧
    (∀ t' ∈ enabledChecks config, ∀ r, outcomes t' = Except.ok r →
      r ∈ (checkVelocity config outcomes).checks) ∧
    checkVelocity config outcomes = aggregate (checkVelocity config outcomes).checks ∧
    (checkVelocity config outcomes).checks.length = (enabledChecks config).length := by
  have hne : ¬((enabledChecks config).isEmpty = true) := by
    intro hE
    rw [List.isEmpty_iff] at hE
    rw [hE] at ht
    exact absurd ht (List.not_mem_nil t)
  have hchecks : (checkVelocity config outcomes).checks =
      (enabledChecks config).map (fun name =>
        match outcomes name with
        | Except.ok r => r
        | Except.error _ => standInResult name) := by
    simp [checkVelocity, hne, aggregate]
  refine ⟨?_, ?_, ?_, ?_⟩
  · rw [hchecks]
    have := List.mem_map_of_mem (fun name =>
      match outcomes name with
      | Except.ok r => r
      | Except.error _ => standInResult name) ht
    simpa [herr] using this
  · intro t' ht' r hok
    rw [hchecks]
    have := List.mem_map_of_mem (fun name =>
      match outcomes name with
      | Except.ok r => r
      | Except.error _ => standInResult name) ht'
    simpa [hok] using this
  · simp [checkVelocity, hne, aggregate]
  · rw [hchecks, List.length_map]

/-- Witness for C6: with all three checks enabled, the frequency check
failing with a storage error and the other two fulfilled, the stand-in and
the fulfilled results all appear in the aggregated check list. -/
theorem velocity_storage_failure_contained_witness :
    standInResult VelocityCheckType.frequency ∈
      (checkVelocity
        { enabled := some true, scoring := none,
          frequency := some { enabled := some true, time_windows := none },
          amount := some { enabled := some true, time_windows := none, spike_detection := none },
          failed_transactions := some { enabled := some true, time_windows := none } }
        (fun t =>
          match t with
          | VelocityCheckType.frequency => Except.error "storage failure"
          | VelocityCheckType.amount =>
            Except.ok ⟨VelocityCheckType.amount, 0.3, true, ["spend"]⟩
          | VelocityCheckType.failed =>
            Except.ok ⟨VelocityCheckType.failed, 0, false, []⟩)).checks ∧
    (⟨VelocityCheckType.amount, 0.3, true, ["spend"]⟩ : VelocityCheckResult) ∈
      (checkVelocity
        { enabled := some true, scoring := none,
          frequency := some { enabled := some true, time_windows := none },
          amount := some { enabled := some true, time_windows := none, spike_detection := none },
          failed_transactions := some { enabled := some true, time_windows := none } }
        (fun t =>
          match t with
          | VelocityCheckType.frequency => Except.error "storage failure"
          | VelocityCheckType.amount =>
            Except.ok ⟨VelocityCheckType.amount, 0.3, true, ["spend"]⟩
          | VelocityCheckType.failed =>
            Except.ok ⟨VelocityCheckType.failed, 0, false, []⟩)).checks := by
  have h := velocity_storage_failure_contained
    { enabled := some true, scoring := none,
      frequency := some { enabled := some true, time_windows := none },
      amount := some { enabled := some true, time_windows := none, spike_detection := none },
      failed_transactions := some { enabled := some true, time_windows := none } }
    (fun t =>
      match t with
      | VelocityCheckType.frequency => Except.error "storage failure"
      | VelocityCheckType.amount =>
        Except.ok ⟨VelocityCheckType.amount, 0.3, true, ["spend"]⟩
      | VelocityCheckType.failed =>
        Except.ok ⟨VelocityCheckType.failed, 0, false, []⟩)
    VelocityCheckType.frequency "storage failure" (by decide) rfl
  exact ⟨h.1, h.2.1 VelocityCheckType.amount (by decide) _ rfl⟩

namespace FraudGuard

/-- A JavaScript number as seen by `standardizeFeatures`: either a finite
value (exact rational) or a non-finite one (`NaN` / `±Infinity`), which is
what `isFinite` rejects. -/
inductive JSNum where
  | num (q : ℚ)
  | nonfinite
deriving DecidableEq, Repr

/-- JS subtraction: finite minus finite is finite (overflow ignored); any
non-finite operand gives a non-finite result. -/
def JSNum.sub : JSNum → JSNum → JSNum
  | JSNum.num a, JSNum.num b => JSNum.num (a - b)
  | _, _ => JSNum.nonfinite

/-- JS division: a finite value divided by 0 is non-finite (`±Infinity` or
`NaN`); a non-finite operand gives a non-finite result.  (The one JS case
this conservatively over-approximates is a finite value divided by
`±Infinity`, which JS sends to 0; scaler parameters come from a JSON file,
which cannot encode non-finite numbers.) -/
def JSNum.div : JSNum → JSNum → JSNum
  | JSNum.num a, JSNum.num b => if b = 0 then JSNum.nonfinite else JSNum.num (a / b)
  | _, _ => JSNum.nonfinite

/-- `isFinite` from JS. -/
def JSNum.isFinite : JSNum → Bool
  | JSNum.num _ => true
  | JSNum.nonfinite => false

/-- The `for` loop of `standardizeFeatures` (model/feature-extractor.ts
lines 143-153), recursing over the three arrays in lockstep with the running
index `i` used in the error message; the first non-finite standardized value
aborts the loop with a `ModelError` and no partial result escapes. -/
def standardizeLoop (i : ℕ) : List JSNum → List JSNum → List JSNum →
    Except String (List JSNum)
  | [], _, _ => Except.ok []
  | f :: fs, m :: ms, s :: ss =>
    let standardizedValue := (f.sub m).div s
    if standardizedValue.isFinite then
      match standardizeLoop (i + 1) fs ms ss with
      | Except.ok rest => Except.ok (standardizedValue :: rest)
      | Except.error e => Except.error e
    else
      Except.error ("Invalid standardized value at index " ++ toString i)
  | _ :: _, _, _ => Except.ok []

/-- `standardizeFeatures` from `src/model/feature-extractor.ts`
(lines 138-156): length guard, then elementwise `(x - mean) / std` with a
finiteness check on every element. -/
def standardizeFeatures (features mean std : List JSNum) :
    Except String (List JSNum) :=
  if features.length ≠ mean.length ∨ features.length ≠ std.length then
    Except.error "Feature array length must match scaler parameters length"
  else
    standardizeLoop 0 features mean std

end FraudGuard

theorem standardizeLoop_spec (fs : List JSNum) : ∀ (i : ℕ) (ms ss : List JSNum),
    fs.length = ms.length → fs.length = ss.length →
    ((∃ e, standardizeLoop i fs ms ss = Except.error e) ↔
      ∃ j a b c, fs.get? j = some a ∧ ms.get? j = some b ∧ ss.get? j = some c ∧
        ((a.sub b).div c).isFinite = false) ∧
    (∀ out, standardizeLoop i fs ms ss = Except.ok out →
      out.length = fs.length ∧
      ∀ j a b c, fs.get? j = some a → ms.get? j = some b → ss.get? j = some c →
        out.get? j = some ((a.sub b).div c)) := by
  induction fs with
  | nil =>
    intro i ms ss hm hs
    refine ⟨⟨?_, ?_⟩, ?_⟩
    · rintro ⟨e, he⟩
      simp [standardizeLoop] at he
    · rintro ⟨j, a, b, c, hj, -⟩
      simp at hj
    · intro out hout
      simp only [standardizeLoop, Except.ok.injEq] at hout
      subst hout
      refine ⟨rfl, ?_⟩
      intro j a b c hj
      simp at hj
  | cons f fs ih =>
    intro i ms ss hm hs
    match ms, ss with
    | [], _ => simp at hm
    | _ :: _, [] => simp at hs
    | m :: ms, s :: ss =>
      simp only [List.length_cons, Nat.succ.injEq] at hm hs
      have IH := ih (i + 1) ms ss hm hs
      by_cases hv : ((f.sub m).div s).isFinite = true
      · cases hrec : standardizeLoop (i + 1) fs ms ss with
        | ok rest =>
          have hloop : standardizeLoop i (f :: fs) (m :: ms) (s :: ss) =
              Except.ok ((f.sub m).div s :: rest) := by
            simp [standardizeLoop, hv, hrec]
          refine ⟨⟨?_, ?_⟩, ?_⟩
          · rintro ⟨e, he⟩
            rw [hloop] at he
            cases he
          · rintro ⟨j, a, b, c, hja, hjb, hjc, hfin⟩
            exfalso
            cases j with
            | zero =>
              simp only [List.get?_cons_zero, Option.some.injEq] at hja hjb hjc
              subst hja; subst hjb; subst hjc
              rw [hv] at hfin
              cases hfin
            | succ j =>
              obtain ⟨e, he⟩ := IH.1.mpr ⟨j, a, b, c, by simpa using hja,
                by simpa using hjb, by simpa using hjc, hfin⟩
              rw [hrec] at he
              cases he
          · intro out hout
            rw [hloop] at hout
            cases hout
            obtain ⟨hlen, hget⟩ := IH.2 rest hrec
            refine ⟨by simp [hlen], ?_⟩
            intro j a b c hja hjb hjc
            cases j with
            | zero =>
              simp only [List.get?_cons_zero, Option.some.injEq] at hja hjb hjc ⊢
              subst hja; subst hjb; subst hjc
              rfl
            | succ j =>
              simpa using hget j a b c (by simpa using hja) (by simpa using hjb)
                (by simpa using hjc)
        | error e0 =>
          have hloop : standardizeLoop i (f :: fs) (m :: ms) (s :: ss) =
              Except.error e0 := by
            simp [standardizeLoop, hv, hrec]
          refine ⟨⟨?_, ?_⟩, ?_⟩
          · intro _
            obtain ⟨j, a, b, c, h1, h2, h3, h4⟩ := IH.1.mp ⟨e0, hrec⟩
            exact ⟨j + 1, a, b, c, by simpa using h1, by simpa using h2,
              by simpa using h3, h4⟩
          · intro _
            exact ⟨e0, hloop⟩
          · intro out hout
            rw [hloop] at hout
            cases hout
      · have hvf : ((f.sub m).div s).isFinite = false := by
          cases h' : ((f.sub m).div s).isFinite
          · rfl
          · exact absurd h' hv
        have hloop : standardizeLoop i (f :: fs) (m :: ms) (s :: ss) =
            Except.error ("Invalid standardized value at index " ++ toString i) := by
          simp [standardizeLoop, hvf]
        refine ⟨⟨?_, ?_⟩, ?_⟩
        · intro _
          exact ⟨0, f, m, s, rfl, rfl, rfl, hvf⟩
        · intro _
          exact ⟨_, hloop⟩
        · intro out hout
          rw [hloop] at hout
          cases hout

/-- Claim C7: `standardizeFeatures` fails with a ModelError (returning no
partial result) if and only if the array lengths mismatch or some
elementwise `(x[i] - mean[i]) / std[i]` is non-finite (std[i] = 0 or a
non-finite input); otherwise it returns exactly `(x[i] - mean[i]) / std[i]`
at every index, never clamping or substituting. -/
theorem standardize_exact_or_error (features mean std : List JSNum) :
    (∀ out, standardizeFeatures features mean std = Except.ok out →
      out.length = features.length ∧
      ∀ i a b c, features.get? i = some a → mean.get? i = some b →
        std.get? i = some c → out.get? i = some ((a.sub b).div c)) ∧
    ((∃ e, standardizeFeatures features mean std = Except.error e) ↔
      features.length ≠ mean.length ∨ features.length ≠ std.length ∨
      ∃ i a b c, features.get? i = some a ∧ mean.get? i = some b ∧
        std.get? i = some c ∧ ((a.sub b).div c).isFinite = false) := by
  by_cases hlen : features.length ≠ mean.length ∨ features.length ≠ std.length
  · have hsf : standardizeFeatures features mean std =
        Except.error "Feature array length must match scaler parameters length" := by
      simp [standardizeFeatures, hlen]
    refine ⟨?_, ?_, ?_⟩
    · intro out hout
      rw [hsf] at hout
      cases hout
    · intro _
      exact Or.imp id Or.inl hlen
    · intro _
      exact ⟨_, hsf⟩
  · push_neg at hlen
    obtain ⟨hm, hs⟩ := hlen
    have hcond : ¬(features.length ≠ mean.length ∨ features.length ≠ std.length) := by
      push_neg
      exact ⟨hm, hs⟩
    have hsf : standardizeFeatures features mean std =
        standardizeLoop 0 features mean std := by
      unfold standardizeFeatures
      rw [if_neg hcond]
    obtain ⟨herr, hok⟩ := standardizeLoop_spec features 0 mean std hm hs
    refine ⟨?_, ?_⟩
    · intro out hout
      exact hok out (hsf ▸ hout)
    · rw [hsf]
      rw [herr]
      constructor
      · intro h
        exact Or.inr (Or.inr h)
      · intro h
        rcases h with h | h | h
        · exact absurd hm h
        · exact absurd hs h
        · exact h

/-- Witness for C7: dividing by a zero scale entry is an error, and a
well-formed input standardizes to exactly the elementwise values. -/
theorem standardize_exact_or_error_witness :
    (∃ e, standardizeFeatures [JSNum.num 1] [JSNum.num 0] [JSNum.num 0] =
      Except.error e) ∧
    standardizeFeatures [JSNum.num 4] [JSNum.num 1] [JSNum.num 2] =
      Except.ok [((JSNum.num 4).sub (JSNum.num 1)).div (JSNum.num 2)] := by
  constructor
  · exact (standardize_exact_or_error [JSNum.num 1] [JSNum.num 0]
      [JSNum.num 0]).2.mpr (Or.inr (Or.inr ⟨0, _, _, _, rfl, rfl, rfl, rfl⟩))
  · rfl

namespace FraudGuard

namespace PredictionService

/-- `PredictionService.determineRiskLevel` (services/prediction-service.ts
lines 276-284), the service's private copy of the decision policy applied
with its resolved thresholds. -/
def determineRiskLevel (thresholds : Thresholds) (score : ℚ) : RiskLevel :=
  if score ≥ thresholds.reject then RiskLevel.high
  else if score ≥ thresholds.review then RiskLevel.medium
  else RiskLevel.low

/-- `PredictionService.determineAction` (lines 286-294). -/
def determineAction (thresholds : Thresholds) (score : ℚ) : Action :=
  if score ≥ thresholds.reject then Action.reject
  else if score ≥ thresholds.review then Action.review
  else Action.accept

/-- The comparison `percentageOfBalance >= threshold` from
`checkWalletBalance`, where `percentageOfBalance = (amount / walletBalance) * 100`.
For a zero balance JS produces `+Infinity` (amount > 0, comparison true),
`NaN` (amount = 0, false) or `-Infinity` (amount < 0, false); for a non-zero
balance the rational comparison is exact. -/
def pctGE (amount walletBalance threshold : ℚ) : Bool :=
  if walletBalance = 0 then decide (0 < amount)
  else decide (amount / walletBalance * 100 ≥ threshold)

/-- `PredictionService.checkWalletBalance` (lines 205-237): reasons in
emission order and the summed score adjustment. -/
def checkWalletBalance (amount walletBalance : ℚ) : List String × ℚ :=
  let r1 : List String × ℚ :=
    if amount > walletBalance then
      (["Transaction amount exceeds wallet balance"], 0.15)
    else ([], 0)
  let r2 : List String × ℚ :=
    if pctGE amount walletBalance 95 then
      (["Transaction draining wallet balance (≥95%)"], 0.10)
    else if pctGE amount walletBalance 80 then
      (["Large percentage of wallet balance (≥80%)"], 0.05)
    else ([], 0)
  let r3 : List String × ℚ :=
    if walletBalance = 0 ∧ 0 < amount then
      (["Transaction attempted with zero wallet balance"], 0.10)
    else ([], 0)
  (r1.1 ++ r2.1 ++ r3.1, r1.2 + r2.2 + r3.2)

/-- `PredictionService.isPrivateIp` (lines 267-270): the three private-range
prefixes tested by the regexes. -/
def isPrivateIp (ip : String) : Bool :=
  ip.startsWith "10." ||
  (List.range 16).any (fun k => ip.startsWith ("172." ++ toString (16 + k) ++ ".")) ||
  ip.startsWith "192.168."

/-- `PredictionService.isLocalhostIp` (lines 272-274). -/
def isLocalhostIp (ip : String) : Bool :=
  ip = "127.0.0.1" || ip = "::1" || ip = "localhost"

/-- `PredictionService.checkIpAddress` (lines 239-252): private ranges are
informational only; loopback adds 0.05. -/
def checkIpAddress (ipAddress : String) : List String × ℚ :=
  if isPrivateIp ipAddress then ([], 0)
  else if isLocalhostIp ipAddress then
    (["Transaction from localhost IP address"], 0.05)
  else ([], 0)

/-- `PredictionService.checkDeviceId` (lines 254-265). -/
def checkDeviceId (deviceId : String) : List String × ℚ :=
  if deviceId = "" ∨ deviceId.trim.length = 0 then
    (["Missing or empty device identifier"], 0.05)
  else ([], 0)

/-- The reason/adjustment accumulation of `applyOptionalFieldChecks`
(lines 156-175): wallet checks when a balance is present (an explicit
`!== undefined` test, so a zero balance passes), ip and device checks under
JS truthiness. -/
def optionalParts (transaction : TransactionData) : List String × ℚ :=
  let wallet : List String × ℚ :=
    match transaction.walletBalance with
    | some b => checkWalletBalance transaction.amount b
    | none => ([], 0)
  let ip : List String × ℚ :=
    match jsStrVal transaction.ipAddress with
    | some addr => checkIpAddress addr
    | none => ([], 0)
  let device : List String × ℚ :=
    match jsStrVal transaction.deviceId with
    | some d => checkDeviceId d
    | none => ([], 0)
  (wallet.1 ++ ip.1 ++ device.1, wallet.2 + ip.2 + device.2)

/-- The result state `applyOptionalFieldChecks` mutates: score, tier, action
and reasons of the in-flight `FraudCheckResult`. -/
structure CheckOutcome where
  score : ℚ
  risk : RiskLevel
  action : Action
  reasons : List String
deriving DecidableEq, Repr

/-- Lines 177-180: push the additional reasons (when any) onto the result. -/
def appendReasons (parts : List String × ℚ) (result : CheckOutcome) : CheckOutcome :=
  if parts.1.isEmpty then result
  else { result with reasons := result.reasons ++ parts.1 }

/-- Lines 182-200: when the summed adjustment is non-zero, clamp the
adjusted score into [0,1]; when the clamped score differs from the original,
recompute risk and action from the new score. -/
def adjustScore (thresholds : Thresholds) (parts : List String × ℚ)
    (result : CheckOutcome) : CheckOutcome :=
  if parts.2 ≠ 0 then
    let newScore := max 0 (min 1 (result.score + parts.2))
    if newScore ≠ result.score then
      { result with
          score := newScore
          risk := determineRiskLevel thresholds newScore
          action := determineAction thresholds newScore }
    else
      { result with score := newScore }
  else
    result

/-- `PredictionService.applyOptionalFieldChecks` (lines 152-203). -/
def applyOptionalFieldChecks (thresholds : Thresholds)
    (transaction : TransactionData) (result : CheckOutcome) : CheckOutcome :=
  adjustScore thresholds (optionalParts transaction)
    (appendReasons (optionalParts transaction) result)

end PredictionService

end FraudGuard

theorem appendReasons_spec (parts : List String × ℚ) (r : PredictionService.CheckOutcome) :
    (PredictionService.appendReasons parts r).score = r.score ∧
    (PredictionService.appendReasons parts r).risk = r.risk ∧
    (PredictionService.appendReasons parts r).action = r.action ∧
    (PredictionService.appendReasons parts r).reasons = r.reasons ++ parts.1 := by
  unfold PredictionService.appendReasons
  by_cases h : parts.1.isEmpty
  · have hnil : parts.1 = [] := by simpa [List.isEmpty_iff] using h
    simp [h, hnil]
  · simp [h]

theorem adjustScore_spec (t : Thresholds) (parts : List String × ℚ)
    (r : PredictionService.CheckOutcome)
    (hrisk : r.risk = PredictionService.determineRiskLevel t r.score)
    (haction : r.action = PredictionService.determineAction t r.score)
    (hs0 : 0 ≤ r.score) (hs1 : r.score ≤ 1) :
    (PredictionService.adjustScore t parts r).score =
      max 0 (min 1 (r.score + parts.2)) ∧
    (PredictionService.adjustScore t parts r).risk =
      PredictionService.determineRiskLevel t
        (PredictionService.adjustScore t parts r).score ∧
    (PredictionService.adjustScore t parts r).action =
      PredictionService.determineAction t
        (PredictionService.adjustScore t parts r).score ∧
    (PredictionService.adjustScore t parts r).reasons = r.reasons := by
  by_cases hadj : parts.2 = 0
  · have hclamp : max 0 (min 1 (r.score + parts.2)) = r.score := by
      rw [hadj, add_zero, min_eq_right hs1, max_eq_right hs0]
    have hres : PredictionService.adjustScore t parts r = r := by
      unfold PredictionService.adjustScore
      simp [hadj]
    rw [hres, hclamp]
    exact ⟨rfl, hrisk, haction, rfl⟩
  · by_cases hnew : max 0 (min 1 (r.score + parts.2)) = r.score
    · have hres : PredictionService.adjustScore t parts r =
          { r with score := max 0 (min 1 (r.score + parts.2)) } := by
        unfold PredictionService.adjustScore
        simp [hadj, hnew]
      rw [hres]
      exact ⟨rfl, by rw [hnew] at *; exact hrisk, by rw [hnew] at *; exact haction, rfl⟩
    · have hres : PredictionService.adjustScore t parts r =
          { r with
              score := max 0 (min 1 (r.score + parts.2))
              risk := PredictionService.determineRiskLevel t
                (max 0 (min 1 (r.score + parts.2)))
              action := PredictionService.determineAction t
                (max 0 (min 1 (r.score + parts.2))) } := by
        unfold PredictionService.adjustScore
        simp [hadj, hnew]
      rw [hres]
      exact ⟨rfl, rfl, rfl, rfl⟩

/-- Claim C8: for a transaction carrying a wallet balance, the wallet
plausibility deltas (amount exceeds balance +0.15 with its reason; draining
≥95% +0.10, else ≥80% +0.05; zero balance with positive amount +0.10) are
summed together with the ip/device deltas, the adjusted score is clamped
into [0,1], and the returned risk/action always equal the decision policy
applied to the returned score (recomputed whenever the clamped score
changed), so the result never carries a score/tier/action mismatch; the
service's policy copy agrees with the decision policy of the result
builder. -/
theorem wallet_adjustment_policy (t : Thresholds) (tx : TransactionData) (b : ℚ)
    (r : PredictionService.CheckOutcome)
    (hb : tx.walletBalance = some b)
    (hrisk : r.risk = PredictionService.determineRiskLevel t r.score)
    (haction : r.action = PredictionService.determineAction t r.score)
    (hs0 : 0 ≤ r.score) (hs1 : r.score ≤ 1) :
    (PredictionService.checkWalletBalance tx.amount b).2 =
      (if tx.amount > b then 0.15 else 0) +
      (if PredictionService.pctGE tx.amount b 95 then 0.10
        else if PredictionService.pctGE tx.amount b 80 then 0.05 else 0) +
      (if b = 0 ∧ 0 < tx.amount then 0.10 else 0) ∧
    (tx.amount > b → "Transaction amount exceeds wallet balance" ∈
      (PredictionService.applyOptionalFieldChecks t tx r).reasons) ∧
    (PredictionService.applyOptionalFieldChecks t tx r).score =
      max 0 (min 1 (r.score + (PredictionService.optionalParts tx).2)) ∧
    (PredictionService.applyOptionalFieldChecks t tx r).risk =
      PredictionService.determineRiskLevel t
        (PredictionService.applyOptionalFieldChecks t tx r).score ∧
    (PredictionService.applyOptionalFieldChecks t tx r).action =
      PredictionService.determineAction t
        (PredictionService.applyOptionalFieldChecks t tx r).score ∧
    (∀ s, PredictionService.determineRiskLevel t s = determineRiskLevel s t) ∧
    (∀ s, PredictionService.determineAction t s = determineAction s t) := by
  obtain ⟨ha1, ha2, ha3, ha4⟩ :=
    appendReasons_spec (PredictionService.optionalParts tx) r
  have hrisk1 : (PredictionService.appendReasons (PredictionService.optionalParts tx) r).risk
      = PredictionService.determineRiskLevel t
        (PredictionService.appendReasons (PredictionService.optionalParts tx) r).score := by
    rw [ha2, ha1]; exact hrisk
  have haction1 : (PredictionService.appendReasons (PredictionService.optionalParts tx) r).action
      = PredictionService.determineAction t
        (PredictionService.appendReasons (PredictionService.optionalParts tx) r).score := by
    rw [ha3, ha1]; exact haction
  obtain ⟨hb1, hb2, hb3, hb4⟩ :=
    adjustScore_spec t (PredictionService.optionalParts tx)
      (PredictionService.appendReasons (PredictionService.optionalParts tx) r)
      hrisk1 haction1 (ha1 ▸ hs0) (ha1 ▸ hs1)
  refine ⟨?_, ?_, ?_, hb2, hb3, fun s => rfl, fun s => rfl⟩
  · unfold PredictionService.checkWalletBalance
    split_ifs <;> norm_num
  · intro hgt
    have hw : "Transaction amount exceeds wallet balance" ∈
        (PredictionService.checkWalletBalance tx.amount b).1 := by
      unfold PredictionService.checkWalletBalance
      simp [hgt]
    have hp : "Transaction amount exceeds wallet balance" ∈
        (PredictionService.optionalParts tx).1 := by
      unfold PredictionService.optionalParts
      simp only [hb]
      simp [List.mem_append, hw]
    show _ ∈ (PredictionService.adjustScore t (PredictionService.optionalParts tx)
      (PredictionService.appendReasons (PredictionService.optionalParts tx) r)).reasons
    rw [hb4, ha4]
    exact List.mem_append.mpr (Or.inr hp)
  · show (PredictionService.adjustScore t (PredictionService.optionalParts tx)
      (PredictionService.appendReasons (PredictionService.optionalParts tx) r)).score = _
    rw [hb1, ha1]

namespace FraudGuard

/-- Scenario D transaction: amount 150 against wallet balance 100. -/
def txD : TransactionData :=
  { amount := 150, customerId := none, walletBalance := some 100,
    ipAddress := none, deviceId := none }

/-- Scenario D incoming result: model score 0.6, consistent MEDIUM/REVIEW
under thresholds (0.4, 0.7). -/
def rD : PredictionService.CheckOutcome :=
  { score := 0.6, risk := RiskLevel.medium, action := Action.review, reasons := [] }

end FraudGuard

/-- Witness for C8, scenario D: balance 100, amount 150 under thresholds
(0.4, 0.7) — the exceeds-balance reason is emitted, the summed delta
0.15 + 0.10 lifts the clamped score to 0.85, and the action recomputes to
REJECT in the same result. -/
theorem wallet_adjustment_policy_witness :
    (PredictionService.applyOptionalFieldChecks ⟨0.4, 0.7⟩ txD rD).score = 0.85 ∧
    (PredictionService.applyOptionalFieldChecks ⟨0.4, 0.7⟩ txD rD).action = Action.reject ∧
    "Transaction amount exceeds wallet balance" ∈
      (PredictionService.applyOptionalFieldChecks ⟨0.4, 0.7⟩ txD rD).reasons := by
  obtain ⟨-, hreason, hscore, -, haction, -, -⟩ :=
    wallet_adjustment_policy ⟨0.4, 0.7⟩ txD 100 rD rfl
      (by norm_num [rD, PredictionService.determineRiskLevel])
      (by norm_num [rD, PredictionService.determineAction])
      (by norm_num [rD]) (by norm_num [rD])
  have hparts : (PredictionService.optionalParts txD).2 = 0.25 := by
    norm_num [PredictionService.optionalParts, PredictionService.checkWalletBalance,
      PredictionService.pctGE, jsStrVal, txD]
  have hs : (PredictionService.applyOptionalFieldChecks ⟨0.4, 0.7⟩ txD rD).score = 0.85 := by
    rw [hscore, hparts]
    show max 0 (min 1 (rD.score + 0.25)) = 0.85
    rw [show rD.score + 0.25 = 0.85 by norm_num [rD],
      min_eq_right (by norm_num : (0.85 : ℚ) ≤ 1),
      max_eq_right (by norm_num : (0 : ℚ) ≤ 0.85)]
  refine ⟨hs, ?_, hreason (by norm_num [txD])⟩
  rw [haction, hs]
  norm_num [PredictionService.determineAction]

namespace FraudGuard

/-- Models `v ? v : d` / `v || d` on an optional natural (0 falsy). -/
def jsOrNat (v : Option ℕ) (d : ℕ) : ℕ :=
  match v with
  | some n => if n = 0 then d else n
  | none => d

/-- Prints an optional number the way a JS template literal does. -/
def jsShowOptQ (v : Option ℚ) : String :=
  match v with
  | some x => toString x
  | none => "undefined"

namespace AmountCheck

/-- `MIN_HISTORY_DAYS` from `velocity/checks/amount-check.ts` (4 weeks). -/
def MIN_HISTORY_DAYS : ℕ := 28

/-- `AmountCheck.checkSpendingSpike` (amount-check.ts lines 73-116):
(triggered, score, reasons).  Skipped for customers younger than 28 days or
with no spending history; triggers when today's spend is at least the
configured multiple of the average daily spend.  (The `toFixed` decimal
rendering of the reason string is abstracted to `toString`.) -/
def checkSpendingSpike (config : AmountConfig) (storageQuery : VelocityStorageQuery)
    (customerId : String) : Bool × ℚ × List String :=
  let customerAgeDays := storageQuery.getCustomerAgeDays customerId
  if customerAgeDays < MIN_HISTORY_DAYS then (false, 0, [])
  else
    let lookbackDays := jsOrNat (config.spike_detection.bind (·.lookback_days)) 28
    let avgDailySpending := storageQuery.getAverageDailySpending customerId lookbackDays
    let todaySpending := storageQuery.getTodaySpending customerId
    if avgDailySpending = 0 then (false, 0, [])
    else
      let multiplier := todaySpending / avgDailySpending
      let configMultiplier := jsOrQ (config.spike_detection.bind (·.multiplier)) 5
      if multiplier ≥ configMultiplier then
        let score := jsOrQ (config.spike_detection.bind (·.score_adjustment)) 0.4
        (true, score,
          ["Spending spike: " ++ toString multiplier ++ "x normal (today: $" ++
           toString todaySpending ++ ", avg: $" ++ toString avgDailySpending ++ ")"])
      else (false, 0, [])

/-- `AmountCheck.check` (amount-check.ts lines 17-71): time-window sums
(limit defaulted to 5000 by a falsy ternary) and the spike sub-check, MAX
across all collected scores, triggered iff the final score is positive. -/
def check (config : AmountConfig) (storageQuery : VelocityStorageQuery)
    (transaction : TransactionData) : VelocityCheckResult :=
  match jsStrVal transaction.customerId with
  | none =>
    { type := VelocityCheckType.amount, score := 0, triggered := false, reasons := [] }
  | some customerId =>
    let windowPart : List ℚ × List String :=
      match config.time_windows with
      | some windows =>
        let wpairs := windows.map (fun window =>
          let totalAmount := storageQuery.sumAmounts customerId window.period_minutes
          let maxAmount := jsOrQ window.max_amount 5000
          if totalAmount > maxAmount then
            ([window.score_adjustment],
             ["$" ++ toString totalAmount ++ " spent in " ++
              toString window.period_minutes ++ " minutes (limit: $" ++
              jsShowOptQ window.max_amount ++ ")"])
          else ([], []))
        (wpairs.flatMap (·.1), wpairs.flatMap (·.2))
      | none => ([], [])
    let spikePart : List ℚ × List String :=
      if jsTruthy (config.spike_detection.bind (·.enabled)) then
        let spikeResult := checkSpendingSpike config storageQuery customerId
        if spikeResult.1 then ([spikeResult.2.1], spikeResult.2.2) else ([], [])
      else ([], [])
    let finalScore := mathMaxList (windowPart.1 ++ spikePart.1)
    { type := VelocityCheckType.amount, score := finalScore,
      triggered := decide (0 < finalScore),
      reasons := windowPart.2 ++ spikePart.2 }

end AmountCheck

namespace FailedTransactionCheck

/-- `FailedTransactionCheck.check` (part of the concatenated source,
lines 21-73): per window, the failed-transaction count against a limit
defaulted to 5 by a falsy ternary; MAX across windows; triggered iff the
final score is positive. -/
def check (config : FailedTransactionsConfig) (storageQuery : VelocityStorageQuery)
    (transaction : TransactionData) : VelocityCheckResult :=
  match jsStrVal transaction.customerId with
  | none =>
    { type := VelocityCheckType.failed, score := 0, triggered := false, reasons := [] }
  | some customerId =>
    match config.time_windows with
    | none =>
      { type := VelocityCheckType.failed, score := 0, triggered := false, reasons := [] }
    | some windows =>
      if windows.isEmpty then
        { type := VelocityCheckType.failed, score := 0, triggered := false, reasons := [] }
      else
        let pairs := windows.map (fun window =>
          let failedCount := storageQuery.countFailedTransactions customerId
            window.period_minutes
          let maxFailed := jsOrNat window.max_failed 5
          if failedCount > maxFailed then
            ([window.score_adjustment],
             [toString failedCount ++ " failed transactions in " ++
              toString window.period_minutes ++ " minutes (limit: " ++
              toString maxFailed ++ ")"])
          else ([], []))
        let finalScore := mathMaxList (pairs.flatMap (·.1))
        { type := VelocityCheckType.failed, score := finalScore,
          triggered := decide (0 < finalScore),
          reasons := pairs.flatMap (·.2) }

end FailedTransactionCheck

end FraudGuard

/-- Claim C10 (amended): every result of the frequency, amount and
failed-transaction checks satisfies triggered = (score > 0); the amount and
failed checks return the zero result when the customer id is absent, the
frequency check when all three subject ids are absent; the frequency and
failed checks return the zero result when no time windows are configured.
(The amount check can still trigger with no time windows, through spike
detection — see the counterexample.) -/
theorem velocity_checks_triggered_iff_positive
    (fcfg : FrequencyConfig) (acfg : AmountConfig) (ccfg : FailedTransactionsConfig)
    (q : VelocityStorageQuery) (tx : TransactionData) :
    ((FrequencyCheck.check fcfg q tx).triggered = true ↔
      0 < (FrequencyCheck.check fcfg q tx).score) ∧
    ((AmountCheck.check acfg q tx).triggered = true ↔
      0 < (AmountCheck.check acfg q tx).score) ∧
    ((FailedTransactionCheck.check ccfg q tx).triggered = true ↔
      0 < (FailedTransactionCheck.check ccfg q tx).score) ∧
    (jsStrVal tx.customerId = none →
      AmountCheck.check acfg q tx =
        ⟨VelocityCheckType.amount, 0, false, []⟩ ∧
      FailedTransactionCheck.check ccfg q tx =
        ⟨VelocityCheckType.failed, 0, false, []⟩) ∧
    (jsStrVal tx.customerId = none → jsStrVal tx.deviceId = none →
      jsStrVal tx.ipAddress = none →
      FrequencyCheck.check fcfg q tx =
        ⟨VelocityCheckType.frequency, 0, false, []⟩) ∧
    ((fcfg.time_windows = none ∨ fcfg.time_windows = some []) →
      FrequencyCheck.check fcfg q tx =
        ⟨VelocityCheckType.frequency, 0, false, []⟩) ∧
    ((ccfg.time_windows = none ∨ ccfg.time_windows = some []) →
      FailedTransactionCheck.check ccfg q tx =
        ⟨VelocityCheckType.failed, 0, false, []⟩) := by
  have hfreq : (FrequencyCheck.check fcfg q tx).triggered =
      decide (0 < (FrequencyCheck.check fcfg q tx).score) := by
    rcases htw : fcfg.time_windows with - | ws
    · norm_num [FrequencyCheck.check, htw]
    · by_cases hem : ws.isEmpty <;> simp [FrequencyCheck.check, htw, hem]
  have hamt : (AmountCheck.check acfg q tx).triggered =
      decide (0 < (AmountCheck.check acfg q tx).score) := by
    rcases hc : jsStrVal tx.customerId with - | cid <;>
      simp [AmountCheck.check, hc]
  have hfail : (FailedTransactionCheck.check ccfg q tx).triggered =
      decide (0 < (FailedTransactionCheck.check ccfg q tx).score) := by
    rcases hc : jsStrVal tx.customerId with - | cid
    · norm_num [FailedTransactionCheck.check, hc]
    · rcases htw : ccfg.time_windows with - | ws
      · norm_num [FailedTransactionCheck.check, hc, htw]
      · by_cases hem : ws.isEmpty <;>
          simp [FailedTransactionCheck.check, hc, htw, hem]
  refine ⟨by simp [hfreq], by simp [hamt], by simp [hfail], ?_, ?_, ?_, ?_⟩
  · intro hc
    constructor
    · simp [AmountCheck.check, hc]
    · simp [FailedTransactionCheck.check, hc]
  · intro hc hd hi
    have hcw : ∀ w, FrequencyCheck.checkWindow q tx w = ([], []) := by
      intro w
      simp [FrequencyCheck.checkWindow, FrequencyCheck.customerPart,
        FrequencyCheck.devicePart, FrequencyCheck.ipPart, hc, hd, hi]
    rcases htw : fcfg.time_windows with - | ws
    · simp [FrequencyCheck.check, htw]
    · by_cases hem : ws.isEmpty
      · simp [FrequencyCheck.check, htw, hem]
      · have hmap : ∀ (l : List TimeWindowConfig),
            (l.map (FrequencyCheck.checkWindow q tx)).filterMap (fun p =>
              match p.1 with
              | [] => none
              | x :: xs => some (mathMax x xs)) = [] := by
          intro l
          induction l with
          | nil => rfl
          | cons a l ih => simp [hcw, ih]
        have hfil : ∀ (l : List TimeWindowConfig),
            (l.map (FrequencyCheck.checkWindow q tx)).filter (fun p => !p.1.isEmpty) = [] := by
          intro l
          induction l with
          | nil => rfl
          | cons a l ih => simp [hcw, ih]
        simp [FrequencyCheck.check, htw, hem, hmap, hfil, mathMaxList]
  · rintro (htw | htw) <;> simp [FrequencyCheck.check, htw]
  · rintro (htw | htw) <;>
      rcases hc : jsStrVal tx.customerId with - | cid <;>
      simp [FailedTransactionCheck.check, hc, htw]

/-- Witness for C10 (amended): with no configured windows, the frequency and
failed checks return the zero, untriggered result. -/
theorem velocity_checks_triggered_iff_positive_witness :
    FrequencyCheck.check ⟨some true, none⟩ (storageCount 7) txC =
      ⟨VelocityCheckType.frequency, 0, false, []⟩ ∧
    FailedTransactionCheck.check ⟨some true, none⟩ (storageCount 7) txC =
      ⟨VelocityCheckType.failed, 0, false, []⟩ := by
  have h := velocity_checks_triggered_iff_positive ⟨some true, none⟩
    ⟨some true, none, none⟩ ⟨some true, none⟩ (storageCount 7) txC
  exact ⟨h.2.2.2.2.2.1 (Or.inl rfl), h.2.2.2.2.2.2 (Or.inl rfl)⟩

namespace FraudGuard

/-- An amount-check configuration with spike detection enabled and NO time
windows. -/
def spikeCfg : AmountConfig :=
  { enabled := some true, time_windows := none,
    spike_detection := some
      { enabled := some true, lookback_days := none, multiplier := none,
        score_adjustment := none } }

/-- A history store describing an established customer (30 days of history,
average daily spend 10) who spends 100 today — a 10x spike. -/
def spikeStorage : VelocityStorageQuery :=
  { countTransactions := fun _ _ _ => 0
    countFailedTransactions := fun _ _ => 0
    sumAmounts := fun _ _ => 0
    getCustomerAgeDays := fun _ => 30
    getAverageDailySpending := fun _ _ => 10
    getTodaySpending := fun _ => 100 }

/-- A transaction with a customer id, for the spike counterexample. -/
def txS : TransactionData :=
  { amount := 50, customerId := some "c1", walletBalance := none,
    ipAddress := none, deviceId := none }

end FraudGuard

/-- Counterexample for C10 as stated: the amount check does NOT return
score 0 whenever no time windows are configured — with spike detection
enabled, no windows, and a 10x spending spike it returns score 0.4 and
triggered = true. -/
theorem amount_spike_no_windows_counterexample :
    spikeCfg.time_windows = none ∧
    (AmountCheck.check spikeCfg spikeStorage txS).score = 0.4 ∧
    (AmountCheck.check spikeCfg spikeStorage txS).score ≠ 0 ∧
    (AmountCheck.check spikeCfg spikeStorage txS).triggered = true := by
  have hj : jsStrVal (some "c1") = some "c1" := rfl
  have h1 : (AmountCheck.checkSpendingSpike spikeCfg spikeStorage "c1").1 = true := by
    norm_num [AmountCheck.checkSpendingSpike, AmountCheck.MIN_HISTORY_DAYS,
      spikeCfg, spikeStorage, jsOrNat, jsOrQ]
  have h2 : (AmountCheck.checkSpendingSpike spikeCfg spikeStorage "c1").2.1 = 0.4 := by
    norm_num [AmountCheck.checkSpendingSpike, AmountCheck.MIN_HISTORY_DAYS,
      spikeCfg, spikeStorage, jsOrNat, jsOrQ]
  have he : jsTruthy (spikeCfg.spike_detection.bind (·.enabled)) = true := rfl
  have hw : spikeCfg.time_windows = none := rfl
  have hscore : (AmountCheck.check spikeCfg spikeStorage txS).score = 0.4 := by
    simp only [AmountCheck.check, txS, hj]
    simp [he, hw, h1, h2, mathMaxList, mathMax]
  have htr : (AmountCheck.check spikeCfg spikeStorage txS).triggered =
      decide (0 < (AmountCheck.check spikeCfg spikeStorage txS).score) := by
    simp [AmountCheck.check, txS, hj]
  refine ⟨rfl, hscore, by rw [hscore]; norm_num, ?_⟩
  rw [htr, hscore]
  norm_num
